import Mathlib

/-!
Verification of the readiness-gated search dispatcher, the status and
progress pollers, the global fetch wrapper and the notification stores of
the imageseek demo client.  The JavaScript and TypeScript sources are
shallowly embedded as executable Lean definitions: network interactions
become explicit environments (a response per request), timer driven
callbacks become step functions over event lists, and DOM or React state
becomes explicit record state.
-/

/-- Model of the JavaScript String.prototype.trim call: drop whitespace
from both ends of the string. -/
def js_trim (s : String) : String :=
  ⟨((s.data.dropWhile Char.isWhitespace).reverse.dropWhile Char.isWhitespace).reverse⟩

namespace SearchJS

/-- Parsed body of a GET /api/search/status response, as read by
poll_for_model_ready_and_search in src/backend/static/js/search.js. -/
structure StatusData where
  ready_for_search : Bool
  model_status : String
deriving DecidableEq

/-- Result of one status poll tick: either the fetch rejected or the JSON
body failed to parse (the thrown message), or a parsed status body. -/
inductive TickResult where
  | fail (msg : String)
  | tick (st : StatusData)
deriving DecidableEq

/-- Parsed body of a POST /search or /search_complex response.  The fields
are the ones read by perform_search and poll_for_model_ready_and_search:
data.status, data.message, data.error, data.total, data.results. -/
structure SearchData where
  status : Option String
  message : String
  error : Option String
  total : Nat
  results : List String
deriving DecidableEq

/-- Result of a primary search POST: either the fetch or JSON parse threw,
or a response with an HTTP status code and a parsed body. -/
inductive HttpResult where
  | fail (msg : String)
  | resp (code : Nat) (body : SearchData)
deriving DecidableEq

/-- The Response.ok flag of the fetch API: status in the 2xx range. -/
def response_ok (code : Nat) : Bool :=
  200 ≤ code && code < 300

/-- The JSON body sent with a search request, built in perform_search:
query, max_results, and hybrid_function only in hybrid mode. -/
structure BodyData where
  query : String
  max_results : Nat
  hybrid_function : Option Nat
deriving DecidableEq

/-- Environment of one gated dispatch: the response to the initial POST,
the response to the (at most one) retried POST, and the response to the
status poll of each tick (1-indexed). -/
structure SearchEnv where
  first : HttpResult
  retry : HttpResult
  ticks : Nat → TickResult

/-- Final outcome surfaced by a dispatch: display_results was called with
a response body, or show_error_message was called with a message. -/
inductive Outcome where
  | displayed (d : SearchData)
  | errorMsg (msg : String)
deriving DecidableEq

/-- The thrown message for a non-ok search response:
data.error or the HTTP error fallback text. -/
def error_text (body : SearchData) (code : Nat) : String :=
  body.error.getD ("HTTP error! status: " ++ toString code)

/-- Aggregate result of the polling loop: the surfaced outcome, the number
of status polls performed, and whether the search POST was re-issued. -/
structure PollOut where
  outcome : Outcome
  polls : Nat
  retried : Bool
deriving DecidableEq

/-- Outcome of processing the retried search response in the ready branch
of poll_for_model_ready_and_search: display_results on an ok response,
otherwise the thrown error is caught and surfaced as a search failure. -/
def retry_outcome (r : HttpResult) : Outcome :=
  match r with
  | .fail msg => .errorMsg ("Search failed: " ++ msg)
  | .resp code body =>
    if response_ok code then .displayed body
    else .errorMsg ("Search failed: " ++ error_text body code)

/-- One tick of poll_for_model_ready_and_search, sequential semantics:
attempts is incremented, the status endpoint is polled; a throw aborts the
loop and surfaces the error; a ready status clears the timer and re-issues
the search; otherwise the loop times out once attempts reaches 60 and
continues to the next tick before that.  The structural fuel argument is
always at least 60 - attempts at call time, so the fuel-exhausted branch is
never taken: termination is decided by the max_attempts check exactly as in
the source. -/
def poll_from_aux (ticks : Nat → TickResult) (retry : HttpResult) :
    Nat → Nat → PollOut
  | 0, _ =>
    ⟨.errorMsg "Search failed: Model loading timeout - please try again later", 0, false⟩
  | fuel + 1, attempts =>
    match ticks (attempts + 1) with
    | .fail msg => ⟨.errorMsg ("Search failed: " ++ msg), 1, false⟩
    | .tick st =>
      if st.ready_for_search then ⟨retry_outcome retry, 1, true⟩
      else if 60 ≤ attempts + 1 then
        ⟨.errorMsg "Search failed: Model loading timeout - please try again later", 1, false⟩
      else
        let r := poll_from_aux ticks retry fuel (attempts + 1)
        ⟨r.outcome, r.polls + 1, r.retried⟩

/-- The polling loop of poll_for_model_ready_and_search started after
`attempts` ticks have already elapsed (the dispatcher starts it at 0). -/
def poll_from (ticks : Nat → TickResult) (retry : HttpResult) (attempts : Nat) : PollOut :=
  poll_from_aux ticks retry (60 - attempts) attempts

/-- Trace of one perform_search call: the surfaced outcome, the list of
search POSTs issued as endpoint and body pairs, and the number of status
polls performed. -/
structure SearchRun where
  outcome : Outcome
  requests : List (String × BodyData)
  polls : Nat
deriving DecidableEq

/-- Model of perform_search in src/backend/static/js/search.js: trim the
query and reject it when empty; otherwise POST the body to the selected
endpoint; a 202 response with status model_loading starts the readiness
polling loop, a non-ok response throws and is surfaced as a search
failure, and an ok response is displayed. -/
def perform_search (input : String) (max_results : Nat)
    (is_hybrid : Bool) (hybrid_function : Nat) (env : SearchEnv) : SearchRun :=
  let query := js_trim input
  if query = "" then ⟨.errorMsg "Please enter a search query", [], 0⟩
  else
    let endpoint := if is_hybrid then "/search_complex" else "/search"
    let body : BodyData := ⟨query, max_results, if is_hybrid then some hybrid_function else none⟩
    match env.first with
    | .fail msg => ⟨.errorMsg ("Search failed: " ++ msg), [(endpoint, body)], 0⟩
    | .resp code d =>
      if code = 202 ∧ d.status = some "model_loading" then
        let p := poll_from env.ticks env.retry 0
        ⟨p.outcome, (endpoint, body) :: (if p.retried then [(endpoint, body)] else []), p.polls⟩
      else if response_ok code = false then
        ⟨.errorMsg ("Search failed: " ++ error_text d code), [(endpoint, body)], 0⟩
      else ⟨.displayed d, [(endpoint, body)], 0⟩

/-- Tick k is the first status poll whose response reports readiness:
every earlier tick parses to a not-ready status, tick k parses to a ready
status, and k is within the 60-tick deadline. -/
def first_ready_at (ticks : Nat → TickResult) (k : Nat) : Prop :=
  1 ≤ k ∧ k ≤ 60 ∧
  (∀ j, 1 ≤ j → j < k → ∃ st, ticks j = .tick st ∧ st.ready_for_search = false) ∧
  (∃ st, ticks k = .tick st ∧ st.ready_for_search = true)

/-- Display-relevant DOM state touched by the perform_search prologue:
the display styles of the result area elements, the rendered result items,
the welcome section, the search button and the error toasts. -/
structure UIState where
  loading_display : String
  no_results_display : String
  results_list_display : String
  model_loading_display : String
  results_html : List String
  welcome_display : String
  search_button_disabled : Bool
  toasts : List (String × String)
deriving DecidableEq

/-- hide_all_result_elements: hide the loading indicator, the no-results
element, the results list and the model loading indicator. -/
def hide_all_result_elements (ui : UIState) : UIState :=
  { ui with loading_display := "none", no_results_display := "none",
            results_list_display := "none", model_loading_display := "none" }

/-- show_error_message: hide all result elements, then raise a Search
Error toast with the message. -/
def show_error_message (ui : UIState) (message : String) : UIState :=
  let u := hide_all_result_elements ui
  { u with toasts := u.toasts ++ [("Search Error", message)] }

/-- hide_welcome_section: hide the welcome section. -/
def hide_welcome_section (ui : UIState) : UIState :=
  { ui with welcome_display := "none" }

/-- show_loading: hide all result elements, show the loading indicator and
disable the search button. -/
def show_loading (ui : UIState) : UIState :=
  let u := hide_all_result_elements ui
  { u with loading_display := "flex", search_button_disabled := true }

/-- The synchronous prologue of perform_search, up to its first network
suspension: an empty trimmed query surfaces the enter-a-query error and
returns without any request; otherwise the welcome section is hidden, the
loading state is shown, and the search POST proceeds (second component
true). -/
def perform_search_dom (input : String) (ui : UIState) : UIState × Bool :=
  if js_trim input = "" then (show_error_message ui "Please enter a search query", false)
  else (show_loading (hide_welcome_section ui), true)

end SearchJS

namespace PollerSem

/-- State of one poll_for_model_ready_and_search timer loop under the
browser event loop: whether the interval is still set, the current value
of the mutable attempts counter, the attempt numbers of status requests
that are in flight, how many times the ready continuation (retry of the
pending search) has run, and the error messages surfaced. -/
structure St where
  timerActive : Bool
  attempts : Nat
  inFlight : List Nat
  readyCount : Nat
  errors : List String
deriving DecidableEq

/-- Events of the loop: the interval fires (the callback increments
attempts and issues the status fetch, then suspends), or the response of
an in-flight request arrives and the rest of that callback runs. -/
inductive Event where
  | fire
  | respond (id : Nat) (r : SearchJS.TickResult)
deriving DecidableEq

/-- One event of the readiness poller.  A fire on a cleared interval does
nothing.  A response runs the remainder of its callback: a throw clears
the interval and surfaces the error; a ready status clears the interval
and runs the ready continuation; a not-ready status times the loop out
when the current attempts counter has reached 60.  Nothing guards a
callback of a request issued before the interval was cleared: only future
fires are prevented. -/
def step (s : St) (e : Event) : St :=
  match e with
  | .fire =>
    if s.timerActive then
      { s with attempts := s.attempts + 1, inFlight := s.inFlight ++ [s.attempts + 1] }
    else s
  | .respond id r =>
    if s.inFlight.contains id then
      let s1 := { s with inFlight := s.inFlight.erase id }
      match r with
      | .fail msg =>
        { s1 with timerActive := false,
                  errors := s1.errors ++ ["Search failed: " ++ msg] }
      | .tick st =>
        if st.ready_for_search then
          { s1 with timerActive := false, readyCount := s1.readyCount + 1 }
        else if 60 ≤ s1.attempts then
          { s1 with timerActive := false,
                    errors := s1.errors ++
                      ["Search failed: Model loading timeout - please try again later"] }
        else s1
    else s

/-- Initial state right after setInterval is installed. -/
def init : St := ⟨true, 0, [], 0, []⟩

/-- Run the poller over a list of event-loop events. -/
def run (es : List Event) : St :=
  es.foldl step init

/-- The effect of clearInterval on the loop state. -/
def stop_timer (s : St) : St :=
  { s with timerActive := false }

/-- Sequential schedule of the first n ticks: each response is processed
before the next interval fire, tick i receiving response ticks i. -/
def seqEvents (ticks : Nat → SearchJS.TickResult) : Nat → List Event
  | 0 => []
  | n + 1 => seqEvents ticks n ++ [Event.fire, Event.respond (n + 1) (ticks (n + 1))]

end PollerSem

namespace ProgressSem

/-- Parsed body of a GET /api/embeddings/progress response as read by the
progress poller: the fields driving control flow and the rendered text. -/
structure Snapshot where
  active : Bool
  stage : String
  percentage : Nat
deriving DecidableEq

/-- Result of one progress fetch: network or parse failure (caught and
logged), a non-ok response, or a parsed body whose error field drives the
progress.error check. -/
inductive FetchRes where
  | netFail
  | httpErr
  | body (error : Bool) (s : Snapshot)
deriving DecidableEq

/-- State of the active progress polling machinery in the debug panel
file: how many intervals were ever created (their generation numbers),
the generation of the interval currently stored in
global_progress_interval, the in-flight progress fetches tagged with the
generation that issued them, the total number of fetches issued, the
snapshot applications performed on the shared progress UI, and how many
times the container transitioned to the completed state. -/
structure St where
  gen : Nat
  active : Option Nat
  pending : List (Nat × Nat)
  fetchCount : Nat
  displays : List (Nat × Snapshot)
  completions : Nat
deriving DecidableEq

/-- stop_progress_polling: clear the interval stored in
global_progress_interval, whichever generation it belongs to. -/
def stop_polling (s : St) : St :=
  { s with active := none }

/-- Events: start_progress_polling, stop_progress_polling, an interval
fire of the live interval (issues a fetch and suspends), or the arrival of
the response to in-flight fetch (g, id). -/
inductive Event where
  | start
  | stop
  | fire
  | respond (g : Nat) (id : Nat) (r : FetchRes)
deriving DecidableEq

/-- One event of the progress poller.  start first stops any prior
interval and installs a fresh generation.  A fire only issues a fetch when
an interval is live.  A response callback runs unguarded, whatever
generation issued it: a non-ok response stops whichever interval is
currently live; a parsed body without error is rendered to the shared UI,
and when it reports the job inactive the currently live interval is
stopped and the container transitions to completed. -/
def step (s : St) (e : Event) : St :=
  match e with
  | .start =>
    let s1 := stop_polling s
    { s1 with gen := s1.gen + 1, active := some (s1.gen + 1) }
  | .stop => stop_polling s
  | .fire =>
    match s.active with
    | some g =>
      { s with pending := s.pending ++ [(g, s.fetchCount + 1)],
               fetchCount := s.fetchCount + 1 }
    | none => s
  | .respond g id r =>
    if s.pending.contains (g, id) then
      let s1 := { s with pending := s.pending.erase (g, id) }
      match r with
      | .netFail => s1
      | .httpErr => stop_polling s1
      | .body err snap =>
        if err then s1
        else
          let s2 := { s1 with displays := s1.displays ++ [(g, snap)] }
          if snap.active then s2
          else { stop_polling s2 with completions := s2.completions + 1 }
    else s

/-- Initial state: no interval ever created. -/
def init : St := ⟨0, none, [], 0, [], 0⟩

/-- Run the progress machinery over a list of event-loop events. -/
def run (es : List Event) : St :=
  es.foldl step init

/-- Sequential ticks of the first started interval (generation 1): each
response is processed before the next fire, tick i receiving results i. -/
def seqTicks (results : Nat → FetchRes) : Nat → List Event
  | 0 => []
  | n + 1 => seqTicks results n ++ [Event.fire, Event.respond 1 (n + 1) (results (n + 1))]

/-- A run that starts the poller and then processes n sequential ticks. -/
def seqRun (results : Nat → FetchRes) (n : Nat) : List Event :=
  Event.start :: seqTicks results n

/-- The displays produced by the first i sequential ticks of
generation 1 under snapshot source snaps. -/
def expected (snaps : Nat → Snapshot) (i : Nat) : List (Nat × Snapshot) :=
  (List.range i).map (fun j => (1, snaps (j + 1)))

/-- A concrete snapshot source: active at tick 1, finished at tick 2. -/
def snapsW : Nat → Snapshot := fun i =>
  if i ≤ 1 then ⟨true, "Processing", 50⟩ else ⟨false, "Completed", 100⟩

/-- Concrete tick results delivering snapsW without errors. -/
def resultsW : Nat → FetchRes := fun i => .body false (snapsW i)

end ProgressSem

namespace MonitorSem

/-- The two kinds of progress polling loops in the debug panel file: the
fast active poller (global_progress_interval, 1 s) and the slow background
checker (background_progress_check, 5 s). -/
inductive Kind where
  | fast
  | bg
deriving DecidableEq

/-- Remove every timer with the given handle, the effect of
clearInterval. -/
def clearTimer (h : Nat) : List (Nat × Kind) → List (Nat × Kind)
  | [] => []
  | t :: ts => if t.1 = h then clearTimer h ts else t :: clearTimer h ts

/-- The handles of the live timers of one kind. -/
def timersOf (k : Kind) : List (Nat × Kind) → List Nat
  | [] => []
  | t :: ts => if t.2 = k then t.1 :: timersOf k ts else timersOf k ts

/-- Remove a handle from a handle list. -/
def removeId (h : Nat) : List Nat → List Nat
  | [] => []
  | i :: is => if i = h then removeId h is else i :: removeId h is

/-- State of the two-tier progress monitoring: the handle counter, the set
of live interval timers, the two module-level handle variables, the
in-flight background progress fetches, the in-flight confirmation fetches
of check_embedding_progress_on_open, and the request id counter. -/
structure St where
  nextId : Nat
  timers : List (Nat × Kind)
  fastVar : Option Nat
  bgVar : Option Nat
  pendingBg : List Nat
  pendingCheck : List Nat
  nextReq : Nat
deriving DecidableEq

/-- stop_progress_polling: clear the interval named by
global_progress_interval and null the variable. -/
def stop_fast (s : St) : St :=
  match s.fastVar with
  | some h => { s with timers := clearTimer h s.timers, fastVar := none }
  | none => s

/-- start_progress_polling: stop any prior fast poller, then install a
fresh interval and store its handle. -/
def start_fast (s : St) : St :=
  let s1 := stop_fast s
  { s1 with nextId := s1.nextId + 1,
            timers := s1.timers ++ [(s1.nextId + 1, Kind.fast)],
            fastVar := some (s1.nextId + 1) }

/-- stop_background_progress_monitoring: clear the interval named by
background_progress_check and null the variable. -/
def stop_bg (s : St) : St :=
  match s.bgVar with
  | some h => { s with timers := clearTimer h s.timers, bgVar := none }
  | none => s

/-- start_background_progress_monitoring: stop any prior checker, then
install a fresh interval and store its handle. -/
def start_bg (s : St) : St :=
  let s1 := stop_bg s
  { s1 with nextId := s1.nextId + 1,
            timers := s1.timers ++ [(s1.nextId + 1, Kind.bg)],
            bgVar := some (s1.nextId + 1) }

/-- Events: the four start and stop entry points, a fire of the background
interval (its callback returns at once when a fast poller handle exists,
otherwise issues the cheap progress fetch and suspends), the response of a
background fetch, and the response of a confirmation fetch issued by
check_embedding_progress_on_open. -/
inductive Event where
  | startFast
  | stopFast
  | startBg
  | stopBg
  | bgFire
  | bgRespond (id : Nat) (r : ProgressSem.FetchRes)
  | checkRespond (id : Nat) (r : ProgressSem.FetchRes)
deriving DecidableEq

/-- One event of the two-tier monitor.  The background callback guard
reads global_progress_interval at tick start; a non-ok cheap response
stops the checker itself; a parsed active body hands off by calling
check_embedding_progress_on_open, whose own fetch is issued here and whose
active response calls start_progress_polling, with no re-check of the
fast handle at that point. -/
def step (s : St) (e : Event) : St :=
  match e with
  | .startFast => start_fast s
  | .stopFast => stop_fast s
  | .startBg => start_bg s
  | .stopBg => stop_bg s
  | .bgFire =>
    if s.bgVar.isSome then
      if s.fastVar.isSome then s
      else { s with pendingBg := s.pendingBg ++ [s.nextReq + 1], nextReq := s.nextReq + 1 }
    else s
  | .bgRespond id r =>
    if s.pendingBg.contains id then
      let s1 := { s with pendingBg := s.pendingBg.erase id }
      match r with
      | .netFail => s1
      | .httpErr => stop_bg s1
      | .body err snap =>
        if err then s1
        else if snap.active then
          { s1 with pendingCheck := s1.pendingCheck ++ [s1.nextReq + 1],
                    nextReq := s1.nextReq + 1 }
        else s1
    else s
  | .checkRespond id r =>
    if s.pendingCheck.contains id then
      let s1 := { s with pendingCheck := s.pendingCheck.erase id }
      match r with
      | .netFail => s1
      | .httpErr => s1
      | .body err snap =>
        if err then s1
        else if snap.active then start_fast s1
        else s1
    else s

/-- Initial state: no timers, no handles, nothing in flight. -/
def init : St := ⟨0, [], none, none, [], [], 0⟩

/-- Run the monitor over a list of events. -/
def run (es : List Event) : St :=
  es.foldl step init

/-- Reachability invariant tying the live timers to the two handle
variables: each variable names exactly the live timers of its kind, the
stored handles are bounded by the handle counter, and the two stored
handles differ. -/
def Inv (s : St) : Prop :=
  (timersOf Kind.fast s.timers = (match s.fastVar with | some i => [i] | none => [])) ∧
  (timersOf Kind.bg s.timers = (match s.bgVar with | some i => [i] | none => [])) ∧
  (∀ i, s.fastVar = some i → i ≤ s.nextId) ∧
  (∀ j, s.bgVar = some j → j ≤ s.nextId) ∧
  (∀ i j, s.fastVar = some i → s.bgVar = some j → i ≠ j)

end MonitorSem

namespace FetchWrap

/-- Parse of the error body text attempted by the fetch wrapper: the
error and message fields of the JSON body, or no parse at all. -/
structure ErrBody where
  error : Option String
  message : Option String
deriving DecidableEq

/-- A fetch Response as the wrapper observes it: status code, status
text, the JSON parse of its body text, and whether the body stream has
already been consumed. -/
structure Response where
  status : Nat
  statusText : String
  body : Option ErrBody
  bodyUsed : Bool
deriving DecidableEq

/-- Response.ok: status in the 2xx range. -/
def ok (r : Response) : Bool :=
  200 ≤ r.status && r.status < 300

/-- What the underlying fetch produced: a response, or a thrown error. -/
inductive FetchOutcome where
  | resp (r : Response)
  | thrown (msg : String)
deriving DecidableEq

/-- The toast text built for a non-ok response: error_data.error, else
error_data.message, else the HTTP fallback, as in the wrapper. -/
def error_message_of (r : Response) : String :=
  match r.body with
  | some eb => eb.error.getD (eb.message.getD ("HTTP " ++ toString r.status ++ ": " ++ r.statusText))
  | none => "HTTP " ++ toString r.status ++ ": " ++ r.statusText

/-- What the wrapped fetch delivers: the value given to the caller and
the toasts raised along the way. -/
structure WrapResult where
  result : FetchOutcome
  toasts : List (String × String)
deriving DecidableEq

/-- Model of the window.fetch wrapper: on a thrown error, toast a
Connection Error unless skipNotification and rethrow; on a non-ok
response without skipNotification, read the body text (consuming the body
stream), toast a Network Error and return the response; otherwise return
the response untouched with no toast. -/
def wrapped_fetch (skipNotification : Bool) (underlying : FetchOutcome) : WrapResult :=
  match underlying with
  | .thrown msg =>
    { result := .thrown msg,
      toasts :=
        if skipNotification then []
        else [("Connection Error", "Failed to connect to server: " ++ msg)] }
  | .resp r =>
    if ok r = false && skipNotification = false then
      { result := .resp { r with bodyUsed := true },
        toasts := [("Network Error", error_message_of r)] }
    else { result := .resp r, toasts := [] }

/-- Whether the underlying fetch succeeded: a response with ok status. -/
def fetch_succeeded (u : FetchOutcome) : Bool :=
  match u with
  | .thrown _ => false
  | .resp r => ok r

/-- A concrete 500 response with a fresh, unread body. -/
def respC8 : Response := ⟨500, "Internal Server Error", none, false⟩

end FetchWrap

namespace NotifySem

/-- The state update of useNotifications.addNotification in the React
hook: append the new notification, then keep only the last
maxNotifications entries via slice(-maxNotifications); slice(-0) returns
the whole array, which the model reproduces. -/
def addNotification (prev : List Nat) (n : Nat) (maxN : Nat) : List Nat :=
  let updated := prev ++ [n]
  if maxN < updated.length then
    if maxN = 0 then updated else updated.drop (updated.length - maxN)
  else updated

/-- State of the vanilla notification module: the insertion-ordered ids
held in the notification_list map, the next notification id, and the ids
whose 300 ms removal timeout is scheduled but has not fired yet. -/
structure VState where
  list : List Nat
  next_id : Nat
  pending_removals : List Nat
deriving DecidableEq

/-- remove_notification: when the id is present, start its 300 ms removal
animation; the map entry is deleted only when the timeout fires. -/
def remove_notification (s : VState) (id : Nat) : VState :=
  if s.list.contains id then { s with pending_removals := s.pending_removals ++ [id] }
  else s

/-- show_notification: allocate the id, schedule removal of the oldest
entry when the map already holds max_notifications (5) entries, then add
the new entry to the map. -/
def show_notification (s : VState) : VState × Nat :=
  let id := s.next_id
  let s1 : VState := { s with next_id := s.next_id + 1 }
  let s2 :=
    if 5 ≤ s1.list.length then
      match s1.list.head? with
      | some oldest => remove_notification s1 oldest
      | none => s1
    else s1
  ({ s2 with list := s2.list ++ [id] }, id)

/-- The 300 ms timeout of a scheduled removal fires: the entry leaves the
map. -/
def removal_timeout (s : VState) (id : Nat) : VState :=
  if s.pending_removals.contains id then
    { s with list := s.list.filter (fun i => i ≠ id),
             pending_removals := s.pending_removals.erase id }
  else s

/-- Initial module state: empty map, ids start at 1. -/
def vinit : VState := ⟨[], 1, []⟩

/-- The state after n show_notification calls with no timeout having
fired in between. -/
def vstateAfter (n : Nat) : VState :=
  (List.range n).foldl (fun s _ => (show_notification s).1) vinit

end NotifySem

namespace SearchJS

/-- A 202 model-loading body used by the concrete environments. -/
def dLoading : SearchData :=
  ⟨some "model_loading", "Model is now loading", none, 0, []⟩

/-- A successful retry body used by the concrete environments. -/
def dOk : SearchData :=
  ⟨none, "", none, 3, ["r1", "r2", "r3"]⟩

/-- Status ticks that report not ready once and then ready. -/
def ticksC1 : Nat → TickResult := fun j =>
  if j < 2 then .tick ⟨false, "loading"⟩ else .tick ⟨true, "loaded"⟩

/-- Concrete environment: 202 first, successful retry, ready at tick 2. -/
def envC1 : SearchEnv := ⟨.resp 202 dLoading, .resp 200 dOk, ticksC1⟩

/-- Status ticks that always report a loading, not ready model. -/
def ticksC2 : Nat → TickResult := fun _ => .tick ⟨false, "loading"⟩

/-- Concrete environment: 202 first and a backend that never gets ready. -/
def envC2 : SearchEnv := ⟨.resp 202 dLoading, .resp 200 dOk, ticksC2⟩

/-- Status ticks whose first poll fails at the network level and whose
later polls would report a loading model. -/
def ticksC6 : Nat → TickResult := fun j =>
  if j = 1 then .fail "NetworkError when attempting to fetch resource"
  else .tick ⟨false, "loading"⟩

/-- Concrete environment: 202 first, then a failing first status poll. -/
def envC6 : SearchEnv := ⟨.resp 202 dLoading, .resp 200 dOk, ticksC6⟩

/-- A trivial environment for runs that issue no request at all. -/
def envTriv : SearchEnv := ⟨.fail "unused", .fail "unused", fun _ => .fail "unused"⟩

/-- A DOM state with two result items currently displayed. -/
def uiC10 : UIState :=
  ⟨"none", "none", "flex", "none", ["item1", "item2"], "none", false, []⟩

end SearchJS

namespace SearchJS

theorem poll_from_aux_ready (ticks : Nat → TickResult) (retry : HttpResult) (k : Nat)
    (hk : first_ready_at ticks k) :
    ∀ fuel attempts, attempts < k → k ≤ attempts + fuel →
      poll_from_aux ticks retry fuel attempts = ⟨retry_outcome retry, k - attempts, true⟩ := by
  obtain ⟨hk1, hk60, hpre, st, hst, hready⟩ := hk
  intro fuel
  induction fuel with
  | zero =>
    intro attempts h1 h2
    omega
  | succ fuel ih =>
    intro attempts h1 h2
    by_cases hak : attempts + 1 = k
    · have hkatt : k - attempts = 1 := by omega
      simp only [poll_from_aux, hak, hst, hready, if_true, hkatt]
    · have hlt : attempts + 1 < k := by omega
      obtain ⟨st2, hst2, hnr⟩ := hpre (attempts + 1) (by omega) hlt
      have h60 : ¬ 60 ≤ attempts + 1 := by omega
      have hrec := ih (attempts + 1) hlt (by omega)
      simp only [poll_from_aux, hst2, hnr, h60, hrec, if_false, Bool.false_eq_true]
      have hkatt : k - (attempts + 1) + 1 = k - attempts := by omega
      simp only [hkatt]

theorem poll_from_aux_loading (ticks : Nat → TickResult) (retry : HttpResult)
    (hload : ∀ j, 1 ≤ j → ∃ st, ticks j = .tick st ∧ st.ready_for_search = false) :
    ∀ fuel attempts, 60 ≤ attempts + fuel → attempts < 60 →
      poll_from_aux ticks retry fuel attempts =
        ⟨.errorMsg "Search failed: Model loading timeout - please try again later",
         60 - attempts, false⟩ := by
  intro fuel
  induction fuel with
  | zero =>
    intro attempts h1 h2
    omega
  | succ fuel ih =>
    intro attempts h1 h2
    obtain ⟨st, hst, hnr⟩ := hload (attempts + 1) (by omega)
    by_cases h60 : 60 ≤ attempts + 1
    · have hkatt : 60 - attempts = 1 := by omega
      simp only [poll_from_aux, hst, hnr, h60, if_true, if_false, Bool.false_eq_true, hkatt]
    · have hrec := ih (attempts + 1) (by omega) (by omega)
      simp only [poll_from_aux, hst, hnr, h60, hrec, if_false, Bool.false_eq_true]
      have hkatt : 60 - (attempts + 1) + 1 = 60 - attempts := by omega
      simp only [hkatt]

theorem poll_from_aux_fail (ticks : Nat → TickResult) (retry : HttpResult)
    (j : Nat) (msg : String) (hj1 : 1 ≤ j) (hj60 : j ≤ 60)
    (hpre : ∀ i, 1 ≤ i → i < j → ∃ st, ticks i = .tick st ∧ st.ready_for_search = false)
    (hfail : ticks j = .fail msg) :
    ∀ fuel attempts, attempts < j → j ≤ attempts + fuel →
      poll_from_aux ticks retry fuel attempts =
        ⟨.errorMsg ("Search failed: " ++ msg), j - attempts, false⟩ := by
  intro fuel
  induction fuel with
  | zero =>
    intro attempts h1 h2
    omega
  | succ fuel ih =>
    intro attempts h1 h2
    by_cases haj : attempts + 1 = j
    · have hkatt : j - attempts = 1 := by omega
      simp only [poll_from_aux, haj, hfail, hkatt]
    · have hlt : attempts + 1 < j := by omega
      obtain ⟨st2, hst2, hnr⟩ := hpre (attempts + 1) (by omega) hlt
      have h60 : ¬ 60 ≤ attempts + 1 := by omega
      have hrec := ih (attempts + 1) hlt (by omega)
      simp only [poll_from_aux, hst2, hnr, h60, hrec, if_false, Bool.false_eq_true]
      have hkatt : j - (attempts + 1) + 1 = j - attempts := by omega
      simp only [hkatt]

theorem perform_search_gated (input : String) (mr : Nat) (hb : Bool) (hf : Nat)
    (env : SearchEnv) (d : SearchData)
    (hq : ¬ js_trim input = "")
    (hfirst : env.first = HttpResult.resp 202 d)
    (hstat : d.status = some "model_loading") :
    perform_search input mr hb hf env =
      ⟨(poll_from env.ticks env.retry 0).outcome,
       (if hb then "/search_complex" else "/search",
        ⟨js_trim input, mr, if hb then some hf else none⟩) ::
         (if (poll_from env.ticks env.retry 0).retried then
            [(if hb then "/search_complex" else "/search",
              ⟨js_trim input, mr, if hb then some hf else none⟩)]
          else []),
       (poll_from env.ticks env.retry 0).polls⟩ := by
  simp only [perform_search, hfirst]
  rw [if_neg hq]
  rw [if_pos ⟨by trivial, hstat⟩]

/-- C1: for every gated search dispatch receiving a 202 response with
status model_loading whose status polling first observes readiness at
tick k, the dispatcher re-issues a request with the identical original
endpoint and body exactly once (two identical POSTs in total), the
outcome delivered is that of the retried response (its body displayed on
2xx, its error surfaced otherwise), any displayed body comes from an ok
retry response and never from the original 202 body as such, and exactly
k polls are performed. -/
theorem gated_dispatch_retry_identical (input : String) (mr : Nat) (hb : Bool) (hf : Nat)
    (env : SearchEnv) (d : SearchData) (k : Nat)
    (hq : ¬ js_trim input = "")
    (hfirst : env.first = HttpResult.resp 202 d)
    (hstat : d.status = some "model_loading")
    (hk : first_ready_at env.ticks k) :
    (perform_search input mr hb hf env).requests =
      [(if hb then "/search_complex" else "/search",
        ⟨js_trim input, mr, if hb then some hf else none⟩),
       (if hb then "/search_complex" else "/search",
        ⟨js_trim input, mr, if hb then some hf else none⟩)] ∧
    (perform_search input mr hb hf env).outcome = retry_outcome env.retry ∧
    (∀ b : SearchData, (perform_search input mr hb hf env).outcome = Outcome.displayed b →
      ∃ c : Nat, env.retry = HttpResult.resp c b ∧ response_ok c = true) ∧
    (perform_search input mr hb hf env).polls = k := by
  have hpoll : poll_from env.ticks env.retry 0 = ⟨retry_outcome env.retry, k, true⟩ := by
    have h := poll_from_aux_ready env.ticks env.retry k hk 60 0
      (by have := hk.1; omega) (by have := hk.2.1; omega)
    simpa [poll_from] using h
  rw [perform_search_gated input mr hb hf env d hq hfirst hstat, hpoll]
  refine ⟨by simp, rfl, ?_, rfl⟩
  intro b hdisp
  have hro : retry_outcome env.retry = Outcome.displayed b := hdisp
  cases hr : env.retry with
  | fail m =>
    rw [hr] at hro
    simp [retry_outcome] at hro
  | resp c body =>
    rw [hr] at hro
    by_cases hok : response_ok c = true
    · simp only [retry_outcome, hok, if_true] at hro
      obtain rfl : body = b := by simpa using hro
      exact ⟨c, rfl, hok⟩
    · simp [retry_outcome, hok] at hro

/-- Witness for C1: with a 202 then a backend ready at the second poll
and a successful retry, the dispatch issues the two identical POSTs,
displays the retried body and performs two polls. -/
theorem gated_dispatch_retry_identical_witness :
    (perform_search "dogs" 8 false 1 envC1).requests =
      [("/search", ⟨"dogs", 8, none⟩), ("/search", ⟨"dogs", 8, none⟩)] ∧
    (perform_search "dogs" 8 false 1 envC1).outcome = Outcome.displayed dOk ∧
    (perform_search "dogs" 8 false 1 envC1).polls = 2 := by
  have hk : first_ready_at envC1.ticks 2 := by
    refine ⟨by omega, by omega, ?_, ⟨⟨true, "loaded"⟩, by decide, rfl⟩⟩
    intro j h1 h2
    have hj : j = 1 := by omega
    subst hj
    exact ⟨⟨false, "loading"⟩, by decide, rfl⟩
  have h := gated_dispatch_retry_identical "dogs" 8 false 1 envC1 dLoading 2
    (by decide) rfl rfl hk
  exact ⟨h.1.trans (by decide), h.2.1.trans (by decide), h.2.2.2⟩

/-- C2: under a backend whose every status poll parses to a not-ready
status, the gated dispatch surfaces the model loading timeout error,
performs exactly 60 polls, and issues exactly one primary POST with no
retry. -/
theorem gated_dispatch_timeout_deadline (input : String) (mr : Nat) (hb : Bool) (hf : Nat)
    (env : SearchEnv) (d : SearchData)
    (hq : ¬ js_trim input = "")
    (hfirst : env.first = HttpResult.resp 202 d)
    (hstat : d.status = some "model_loading")
    (hload : ∀ j, 1 ≤ j → ∃ st, env.ticks j = .tick st ∧ st.ready_for_search = false) :
    (perform_search input mr hb hf env).outcome =
      Outcome.errorMsg "Search failed: Model loading timeout - please try again later" ∧
    (perform_search input mr hb hf env).polls = 60 ∧
    (perform_search input mr hb hf env).requests =
      [(if hb then "/search_complex" else "/search",
        ⟨js_trim input, mr, if hb then some hf else none⟩)] := by
  have hpoll : poll_from env.ticks env.retry 0 =
      ⟨.errorMsg "Search failed: Model loading timeout - please try again later", 60, false⟩ := by
    have h := poll_from_aux_loading env.ticks env.retry hload 60 0 (by omega) (by omega)
    simpa [poll_from] using h
  rw [perform_search_gated input mr hb hf env d hq hfirst hstat, hpoll]
  exact ⟨rfl, rfl, by simp⟩

/-- Witness for C2: a backend that always reports a loading model makes
the concrete dispatch time out after 60 polls with one POST issued. -/
theorem gated_dispatch_timeout_deadline_witness :
    (perform_search "dogs" 8 false 1 envC2).outcome =
      Outcome.errorMsg "Search failed: Model loading timeout - please try again later" ∧
    (perform_search "dogs" 8 false 1 envC2).polls = 60 ∧
    (perform_search "dogs" 8 false 1 envC2).requests = [("/search", ⟨"dogs", 8, none⟩)] := by
  have h := gated_dispatch_timeout_deadline "dogs" 8 false 1 envC2 dLoading
    (by decide) rfl rfl (fun j hj => ⟨⟨false, "loading"⟩, rfl, rfl⟩)
  exact ⟨h.1, h.2.1, h.2.2.trans (by decide)⟩

/-- C6 counterexample: in the gated dispatcher of search.js, a status
poll tick whose fetch fails is not swallowed: with the first tick failing
the run stops after exactly one poll, surfaces the tick failure itself as
the search outcome, and never reaches tick 2 even though tick 2 would
have parsed to an ordinary loading status. -/
theorem poll_failure_surfaced :
    (perform_search "dogs" 8 false 1 envC6).outcome =
      Outcome.errorMsg "Search failed: NetworkError when attempting to fetch resource" ∧
    (perform_search "dogs" 8 false 1 envC6).polls = 1 ∧
    (perform_search "dogs" 8 false 1 envC6).requests = [("/search", ⟨"dogs", 8, none⟩)] ∧
    ticksC6 2 = TickResult.tick ⟨false, "loading"⟩ := by decide

/-- C6 (amended): in the gated dispatcher of search.js a failing status
poll tick aborts the polling loop immediately and surfaces the failure to
the user as the search outcome, instead of being swallowed: with
not-ready ticks before a failing tick j, the run performs exactly j polls,
surfaces the tick failure message, and issues no retry. -/
theorem poll_failure_aborts_polling (input : String) (mr : Nat) (hb : Bool) (hf : Nat)
    (env : SearchEnv) (d : SearchData) (j : Nat) (msg : String)
    (hq : ¬ js_trim input = "")
    (hfirst : env.first = HttpResult.resp 202 d)
    (hstat : d.status = some "model_loading")
    (hj1 : 1 ≤ j) (hj60 : j ≤ 60)
    (hpre : ∀ i, 1 ≤ i → i < j → ∃ st, env.ticks i = .tick st ∧ st.ready_for_search = false)
    (hfail : env.ticks j = .fail msg) :
    (perform_search input mr hb hf env).outcome =
      Outcome.errorMsg ("Search failed: " ++ msg) ∧
    (perform_search input mr hb hf env).polls = j ∧
    (perform_search input mr hb hf env).requests =
      [(if hb then "/search_complex" else "/search",
        ⟨js_trim input, mr, if hb then some hf else none⟩)] := by
  have hpoll : poll_from env.ticks env.retry 0 =
      ⟨.errorMsg ("Search failed: " ++ msg), j, false⟩ := by
    have h := poll_from_aux_fail env.ticks env.retry j msg hj1 hj60 hpre hfail 60 0
      (by omega) (by omega)
    simpa [poll_from] using h
  rw [perform_search_gated input mr hb hf env d hq hfirst hstat, hpoll]
  exact ⟨rfl, rfl, by simp⟩

/-- Witness for the amended C6 at the concrete failing environment. -/
theorem poll_failure_aborts_polling_witness :
    (perform_search "dogs" 8 false 1 envC6).outcome =
      Outcome.errorMsg "Search failed: NetworkError when attempting to fetch resource" ∧
    (perform_search "dogs" 8 false 1 envC6).polls = 1 := by
  have h := poll_failure_aborts_polling "dogs" 8 false 1 envC6 dLoading 1
    "NetworkError when attempting to fetch resource"
    (by decide) rfl rfl (by omega) (by omega)
    (fun i h1 h2 => absurd h2 (by omega)) (by decide)
  exact ⟨h.1, h.2.1⟩

/-- C10 counterexample: calling perform_search with a whitespace query
while two results are displayed issues no request and surfaces the
enter-a-query error, but it also hides the displayed results: the results
list display style flips from flex to none, so the displayed results are
not left unchanged. -/
theorem empty_query_hides_result_display :
    (perform_search_dom "   " uiC10).2 = false ∧
    uiC10.results_list_display = "flex" ∧
    (perform_search_dom "   " uiC10).1.results_list_display = "none" ∧
    (perform_search_dom "   " uiC10).1.toasts =
      [("Search Error", "Please enter a search query")] ∧
    (perform_search "   " 8 false 1 envTriv).requests = [] := by decide

/-- C10 (amended): for every whitespace-only query, no search request
and no poll is issued, the enter-a-query error is the surfaced outcome,
and the stored search state is untouched: the rendered result items and
the welcome section are unchanged; however the vanilla implementation
hides the result display elements while surfacing the error toast. -/
theorem empty_query_no_request (input : String) (mr : Nat) (hb : Bool) (hf : Nat)
    (env : SearchEnv) (ui : UIState)
    (h : js_trim input = "") :
    perform_search input mr hb hf env =
      ⟨Outcome.errorMsg "Please enter a search query", [], 0⟩ ∧
    (perform_search_dom input ui).2 = false ∧
    (perform_search_dom input ui).1.results_html = ui.results_html ∧
    (perform_search_dom input ui).1.welcome_display = ui.welcome_display ∧
    (perform_search_dom input ui).1.results_list_display = "none" ∧
    (perform_search_dom input ui).1.toasts =
      ui.toasts ++ [("Search Error", "Please enter a search query")] := by
  refine ⟨?_, ?_, ?_, ?_, ?_, ?_⟩ <;>
    simp [perform_search, perform_search_dom, h, show_error_message, hide_all_result_elements]

/-- Witness for the amended C10 at a whitespace query and a concrete
displayed state. -/
theorem empty_query_no_request_witness :
    perform_search "   " 8 false 1 envTriv =
      ⟨Outcome.errorMsg "Please enter a search query", [], 0⟩ ∧
    (perform_search_dom "   " uiC10).1.results_html = ["item1", "item2"] ∧
    (perform_search_dom "   " uiC10).1.toasts =
      [("Search Error", "Please enter a search query")] := by
  have h := empty_query_no_request "   " 8 false 1 envTriv uiC10 (by decide)
  exact ⟨h.1, h.2.2.1.trans (by decide), h.2.2.2.2.2.trans (by decide)⟩

end SearchJS

namespace PollerSem

theorem seq_state_pre (ticks : Nat → SearchJS.TickResult) (k : Nat)
    (hk : SearchJS.first_ready_at ticks k) :
    ∀ m, m < k → run (seqEvents ticks m) = ⟨true, m, [], 0, []⟩ := by
  obtain ⟨hk1, hk60, hpre, hkk⟩ := hk
  intro m
  induction m with
  | zero => intro _; rfl
  | succ m ih =>
    intro hm
    obtain ⟨st, hst, hnr⟩ := hpre (m + 1) (by omega) hm
    have hsplit : run (seqEvents ticks (m + 1)) =
        step (step (run (seqEvents ticks m)) Event.fire)
          (Event.respond (m + 1) (ticks (m + 1))) := by
      simp [run, seqEvents, List.foldl_append]
    rw [hsplit, ih (by omega)]
    have hfire : step (⟨true, m, [], 0, []⟩ : St) Event.fire = ⟨true, m + 1, [m + 1], 0, []⟩ := by
      simp [step]
    rw [hfire, hst]
    have h60 : ¬ 60 ≤ m + 1 := by omega
    simp [step, hnr, h60]

theorem seq_state_post (ticks : Nat → SearchJS.TickResult) (k : Nat)
    (hk : SearchJS.first_ready_at ticks k) :
    ∀ n, k ≤ n → run (seqEvents ticks n) = ⟨false, k, [], 1, []⟩ := by
  obtain ⟨hk1, hk60, hpre, st, hst, hready⟩ := hk
  intro n
  induction n with
  | zero => intro h; omega
  | succ n ih =>
    intro hn
    have hsplit : run (seqEvents ticks (n + 1)) =
        step (step (run (seqEvents ticks n)) Event.fire)
          (Event.respond (n + 1) (ticks (n + 1))) := by
      simp [run, seqEvents, List.foldl_append]
    by_cases hkn : k = n + 1
    · have hrunpre : run (seqEvents ticks n) = ⟨true, n, [], 0, []⟩ :=
        seq_state_pre ticks k ⟨hk1, hk60, hpre, st, hst, hready⟩ n (by omega)
      rw [hsplit, hrunpre]
      have hfire : step (⟨true, n, [], 0, []⟩ : St) Event.fire =
          ⟨true, n + 1, [n + 1], 0, []⟩ := by
        simp [step]
      rw [hfire, ← hkn, hst]
      simp [step, hready, hkn]
    · have hrun := ih (by omega)
      rw [hsplit, hrun]
      have hfire : step (⟨false, k, [], 1, []⟩ : St) Event.fire = ⟨false, k, [], 1, []⟩ := by
        simp [step]
      rw [hfire]
      simp [step]

/-- C3 counterexample: with two status requests in flight at once (the
second tick fires while the first response is pending) and both responses
reporting readiness, the ready continuation runs twice: clearing the
interval at the first ready response does not stop the second callback,
which is already awaiting its response, so onReady is not invoked exactly
once. -/
theorem ready_continuation_fires_twice :
    (run [Event.fire, Event.fire,
          Event.respond 1 (.tick ⟨true, "loaded"⟩),
          Event.respond 2 (.tick ⟨true, "loaded"⟩)]).readyCount = 2 ∧
    ¬ (run [Event.fire, Event.fire,
          Event.respond 1 (.tick ⟨true, "loaded"⟩),
          Event.respond 2 (.tick ⟨true, "loaded"⟩)]).readyCount = 1 := by decide

/-- C3 (amended): when each poll response is processed before the next
interval fire (no overlapping in-flight requests), the ready continuation
runs exactly once, at the first tick k that reports readiness and at no
earlier tick, and the poller clears its own interval at that tick;
clearing an already-cleared interval is a no-op.  With overlapping
in-flight responses the continuation can run more than once, since
clearInterval does not affect callbacks already awaiting a response. -/
theorem ready_once_under_sequential_ticks (ticks : Nat → SearchJS.TickResult) (k : Nat)
    (hk : SearchJS.first_ready_at ticks k) :
    (∀ m, m < k → (run (seqEvents ticks m)).readyCount = 0) ∧
    (∀ n, k ≤ n → (run (seqEvents ticks n)).readyCount = 1 ∧
      (run (seqEvents ticks n)).timerActive = false) ∧
    (∀ s : St, stop_timer (stop_timer s) = stop_timer s) := by
  refine ⟨fun m hm => ?_, fun n hn => ?_, fun s => rfl⟩
  · rw [seq_state_pre ticks k hk m hm]
  · rw [seq_state_post ticks k hk n hn]
    exact ⟨rfl, rfl⟩

/-- Witness for the amended C3: with readiness first reported at tick 2,
three sequential ticks leave the ready count at one with the interval
cleared, and one tick leaves it at zero. -/
theorem ready_once_under_sequential_ticks_witness :
    (run (seqEvents SearchJS.ticksC1 3)).readyCount = 1 ∧
    (run (seqEvents SearchJS.ticksC1 3)).timerActive = false ∧
    (run (seqEvents SearchJS.ticksC1 1)).readyCount = 0 := by
  have hk : SearchJS.first_ready_at SearchJS.ticksC1 2 := by
    refine ⟨by omega, by omega, ?_, ⟨⟨true, "loaded"⟩, by decide, rfl⟩⟩
    intro j h1 h2
    have hj : j = 1 := by omega
    subst hj
    exact ⟨⟨false, "loading"⟩, by decide, rfl⟩
  have h := ready_once_under_sequential_ticks SearchJS.ticksC1 2 hk
  exact ⟨(h.2.1 3 (by omega)).1, (h.2.1 3 (by omega)).2, h.1 1 (by omega)⟩

end PollerSem

namespace ProgressSem

theorem seq_state_running (results : Nat → FetchRes) (snaps : Nat → Snapshot) (m : Nat)
    (hres : ∀ i, 1 ≤ i → i ≤ m → results i = .body false (snaps i))
    (hact : ∀ i, 1 ≤ i → i ≤ m → (snaps i).active = true) :
    ∀ i, i ≤ m → run (seqRun results i) = ⟨1, some 1, [], i, expected snaps i, 0⟩ := by
  intro i
  induction i with
  | zero => intro _; rfl
  | succ i ih =>
    intro hi
    have hsplit : run (seqRun results (i + 1)) =
        step (step (run (seqRun results i)) Event.fire)
          (Event.respond 1 (i + 1) (results (i + 1))) := by
      simp [run, seqRun, seqTicks, List.foldl_append]
    rw [hsplit, ih (by omega)]
    have hfire : step (⟨1, some 1, [], i, expected snaps i, 0⟩ : St) Event.fire =
        ⟨1, some 1, [(1, i + 1)], i + 1, expected snaps i, 0⟩ := by
      simp [step]
    rw [hfire, hres (i + 1) (by omega) hi]
    have hsnap := hact (i + 1) (by omega) hi
    simp [step, hsnap, expected, List.range_succ]

theorem seq_state_completed (results : Nat → FetchRes) (snaps : Nat → Snapshot) (m : Nat)
    (hres : ∀ i, 1 ≤ i → i ≤ m + 1 → results i = .body false (snaps i))
    (hact : ∀ i, 1 ≤ i → i ≤ m → (snaps i).active = true)
    (hdone : (snaps (m + 1)).active = false) :
    ∀ n, m + 1 ≤ n →
      run (seqRun results n) = ⟨1, none, [], m + 1, expected snaps (m + 1), 1⟩ := by
  intro n
  induction n with
  | zero => intro h; omega
  | succ n ih =>
    intro hn
    have hsplit : run (seqRun results (n + 1)) =
        step (step (run (seqRun results n)) Event.fire)
          (Event.respond 1 (n + 1) (results (n + 1))) := by
      simp [run, seqRun, seqTicks, List.foldl_append]
    by_cases hmn : m + 1 = n + 1
    · have hrun : run (seqRun results n) = ⟨1, some 1, [], n, expected snaps n, 0⟩ :=
        seq_state_running results snaps m (fun i h1 h2 => hres i h1 (by omega)) hact n (by omega)
      rw [hsplit, hrun]
      have hfire : step (⟨1, some 1, [], n, expected snaps n, 0⟩ : St) Event.fire =
          ⟨1, some 1, [(1, n + 1)], n + 1, expected snaps n, 0⟩ := by
        simp [step]
      rw [hfire, hres (n + 1) (by omega) (by omega)]
      have hsnap : (snaps (n + 1)).active = false := by rw [← hmn]; exact hdone
      rw [← hmn]
      simp [step, hsnap, stop_polling, expected, List.range_succ, hmn]
    · have hrun := ih (by omega)
      rw [hsplit, hrun]
      have hfire : step (⟨1, none, [], m + 1, expected snaps (m + 1), 1⟩ : St) Event.fire =
          ⟨1, none, [], m + 1, expected snaps (m + 1), 1⟩ := by
        simp [step]
      rw [hfire]
      simp [step]

/-- C5: in a sequential run of the progress poller where ticks 1..m
observe an active snapshot and tick m+1 observes an inactive one, the run
performs exactly one completed transition, renders every snapshot
including the final one, stops itself at tick m+1, and after that no
further tick fetches or applies a snapshot: for every later schedule
length the fetch count stays m+1 and the displays stay fixed. -/
theorem completion_transition_once (results : Nat → FetchRes) (snaps : Nat → Snapshot) (m : Nat)
    (hres : ∀ i, 1 ≤ i → i ≤ m + 1 → results i = .body false (snaps i))
    (hact : ∀ i, 1 ≤ i → i ≤ m → (snaps i).active = true)
    (hdone : (snaps (m + 1)).active = false) :
    ∀ n, m + 1 ≤ n →
      (run (seqRun results n)).completions = 1 ∧
      (run (seqRun results n)).active = none ∧
      (run (seqRun results n)).fetchCount = m + 1 ∧
      (run (seqRun results n)).displays = expected snaps (m + 1) := by
  intro n hn
  rw [seq_state_completed results snaps m hres hact hdone n hn]
  exact ⟨rfl, rfl, rfl, rfl⟩

/-- Witness for C5: one active tick followed by an inactive tick, run for
three scheduled ticks: one completion, poller stopped, two fetches, both
snapshots rendered. -/
theorem completion_transition_once_witness :
    (run (seqRun resultsW 3)).completions = 1 ∧
    (run (seqRun resultsW 3)).active = none ∧
    (run (seqRun resultsW 3)).fetchCount = 2 ∧
    (run (seqRun resultsW 3)).displays =
      [(1, ⟨true, "Processing", 50⟩), (1, ⟨false, "Completed", 100⟩)] := by
  have h := completion_transition_once resultsW snapsW 1
    (fun i h1 h2 => rfl)
    (fun i h1 h2 => by
      have hi : i = 1 := by omega
      subst hi
      decide)
    (by decide) 3 (by omega)
  exact ⟨h.1, h.2.1, h.2.2.1, h.2.2.2.trans (by decide)⟩

/-- C4 counterexample: start a poller, let its first fetch go in flight,
stop it, start a new poller; when the old in-flight response then arrives
reporting the job inactive, its callback still runs: it applies the stale
generation 1 snapshot to the shared UI, performs a completed transition,
and stops the newly started generation 2 poller, which was active just
before. -/
theorem stale_progress_response_mutates_ui :
    (run [Event.start, Event.fire, Event.stop, Event.start]).active = some 2 ∧
    run [Event.start, Event.fire, Event.stop, Event.start,
         Event.respond 1 1 (.body false ⟨false, "Completed", 100⟩)] =
      ⟨2, none, [], 1, [(1, ⟨false, "Completed", 100⟩)], 1⟩ := by decide

/-- C4 (amended): stopping a progress poller only prevents future
interval fires; it does not reject the response of a request already in
flight: whatever poller is live at arrival time, the stale response is
applied to the shared UI, and when it reports the job inactive it stops
the currently live poller and performs a completed transition.  Nothing
compares a generation token at apply time. -/
theorem stale_response_still_applied (s : St) (g id : Nat) (snap : Snapshot)
    (hp : s.pending.contains (g, id) = true) :
    (step s (Event.respond g id (.body false snap))).displays = s.displays ++ [(g, snap)] ∧
    (snap.active = false →
      (step s (Event.respond g id (.body false snap))).active = none ∧
      (step s (Event.respond g id (.body false snap))).completions = s.completions + 1) ∧
    (∀ s2 : St, s2.active = none → step s2 Event.fire = s2) := by
  have hp2 : (g, id) ∈ s.pending := by simpa using hp
  refine ⟨?_, fun ha => ?_, fun s2 h2 => by simp [step, h2]⟩
  · by_cases ha : snap.active = true <;> simp [step, hp2, ha, stop_polling]
  · constructor <;> simp [step, hp2, ha, stop_polling]

/-- Witness for the amended C4: a pending generation 1 request arriving
while generation 2 is live renders its snapshot and stops generation 2. -/
theorem stale_response_still_applied_witness :
    (step ⟨2, some 2, [(1, 1)], 1, [], 0⟩
       (Event.respond 1 1 (.body false ⟨false, "Completed", 100⟩))).displays =
      [(1, ⟨false, "Completed", 100⟩)] ∧
    (step ⟨2, some 2, [(1, 1)], 1, [], 0⟩
       (Event.respond 1 1 (.body false ⟨false, "Completed", 100⟩))).active = none := by
  have h := stale_response_still_applied ⟨2, some 2, [(1, 1)], 1, [], 0⟩ 1 1
    ⟨false, "Completed", 100⟩ (by decide)
  exact ⟨h.1.trans (by decide), (h.2.1 rfl).1⟩

end ProgressSem

namespace MonitorSem

theorem timersOf_append (k : Kind) (l1 l2 : List (Nat × Kind)) :
    timersOf k (l1 ++ l2) = timersOf k l1 ++ timersOf k l2 := by
  induction l1 with
  | nil => rfl
  | cons t ts ih => by_cases h : t.2 = k <;> simp [timersOf, h, ih]

theorem timersOf_clearTimer (k : Kind) (h : Nat) (l : List (Nat × Kind)) :
    timersOf k (clearTimer h l) = removeId h (timersOf k l) := by
  induction l with
  | nil => rfl
  | cons t ts ih =>
    by_cases h1 : t.1 = h <;> by_cases h2 : t.2 = k <;>
      simp [clearTimer, timersOf, removeId, h1, h2, ih]

theorem stop_fast_bgVar (s : St) : (stop_fast s).bgVar = s.bgVar := by
  unfold stop_fast
  cases s.fastVar <;> rfl

theorem stop_fast_nextId (s : St) : (stop_fast s).nextId = s.nextId := by
  unfold stop_fast
  cases s.fastVar <;> rfl

theorem stop_fast_fastVar (s : St) : (stop_fast s).fastVar = none := by
  unfold stop_fast
  cases hv : s.fastVar <;> simp [hv]

theorem stop_bg_fastVar (s : St) : (stop_bg s).fastVar = s.fastVar := by
  unfold stop_bg
  cases s.bgVar <;> rfl

theorem stop_bg_nextId (s : St) : (stop_bg s).nextId = s.nextId := by
  unfold stop_bg
  cases s.bgVar <;> rfl

theorem stop_bg_bgVar (s : St) : (stop_bg s).bgVar = none := by
  unfold stop_bg
  cases hv : s.bgVar <;> simp [hv]

theorem inv_stop_fast (s : St) (h : Inv s) : Inv (stop_fast s) := by
  obtain ⟨hf, hb, hfle, hble, hne⟩ := h
  cases hv : s.fastVar with
  | none =>
    simp only [stop_fast, hv]
    exact ⟨hf, hb, hfle, hble, hne⟩
  | some i =>
    simp only [stop_fast, hv]
    refine ⟨?_, ?_, ?_, ?_, ?_⟩
    · rw [timersOf_clearTimer, hf, hv]
      simp [removeId]
    · rw [timersOf_clearTimer, hb]
      cases hbv : s.bgVar with
      | none => rfl
      | some j =>
        have hij : ¬ j = i := fun e => hne i j hv hbv e.symm
        simp [removeId, hij]
    · intro i2 h2
      exact Option.noConfusion h2
    · intro j hj
      exact hble j hj
    · intro i2 j h2 hj
      exact Option.noConfusion h2

theorem inv_stop_bg (s : St) (h : Inv s) : Inv (stop_bg s) := by
  obtain ⟨hf, hb, hfle, hble, hne⟩ := h
  cases hv : s.bgVar with
  | none =>
    simp only [stop_bg, hv]
    exact ⟨hf, hb, hfle, hble, hne⟩
  | some j =>
    simp only [stop_bg, hv]
    refine ⟨?_, ?_, ?_, ?_, ?_⟩
    · rw [timersOf_clearTimer, hf]
      cases hfv : s.fastVar with
      | none => rfl
      | some i =>
        have hij : ¬ i = j := hne i j hfv hv
        simp [removeId, hij]
    · rw [timersOf_clearTimer, hb, hv]
      simp [removeId]
    · intro i hi
      exact hfle i hi
    · intro j2 h2
      exact Option.noConfusion h2
    · intro i j2 hi h2
      exact Option.noConfusion h2

theorem inv_start_fast (s : St) (h : Inv s) : Inv (start_fast s) := by
  have h1 := inv_stop_fast s h
  obtain ⟨hf, hb, hfle, hble, hne⟩ := h1
  simp only [start_fast]
  refine ⟨?_, ?_, ?_, ?_, ?_⟩
  · rw [timersOf_append, hf, stop_fast_fastVar]
    simp [timersOf]
  · rw [timersOf_append, hb]
    simp [timersOf]
  · intro i hi
    simp only [Option.some.injEq] at hi
    dsimp only
    omega
  · intro j hj
    have := hble j hj
    dsimp only
    omega
  · intro i j hi hj
    simp only [Option.some.injEq] at hi
    have := hble j hj
    omega

theorem inv_start_bg (s : St) (h : Inv s) : Inv (start_bg s) := by
  have h1 := inv_stop_bg s h
  obtain ⟨hf, hb, hfle, hble, hne⟩ := h1
  simp only [start_bg]
  refine ⟨?_, ?_, ?_, ?_, ?_⟩
  · rw [timersOf_append, hf]
    simp [timersOf]
  · rw [timersOf_append, hb, stop_bg_bgVar]
    simp [timersOf]
  · intro i hi
    have := hfle i hi
    dsimp only
    omega
  · intro j hj
    simp only [Option.some.injEq] at hj
    dsimp only
    omega
  · intro i j hi hj
    simp only [Option.some.injEq] at hj
    have := hfle i hi
    omega

theorem inv_step (s : St) (e : Event) (h : Inv s) : Inv (step s e) := by
  obtain ⟨hf, hb, hfle, hble, hne⟩ := h
  cases e with
  | startFast => exact inv_start_fast s ⟨hf, hb, hfle, hble, hne⟩
  | stopFast => exact inv_stop_fast s ⟨hf, hb, hfle, hble, hne⟩
  | startBg => exact inv_start_bg s ⟨hf, hb, hfle, hble, hne⟩
  | stopBg => exact inv_stop_bg s ⟨hf, hb, hfle, hble, hne⟩
  | bgFire =>
    simp only [step]
    by_cases h1 : s.bgVar.isSome = true <;> by_cases h2 : s.fastVar.isSome = true <;>
      simp only [h1, h2, if_true, if_false, Bool.false_eq_true] <;>
      exact ⟨hf, hb, hfle, hble, hne⟩
  | bgRespond id r =>
    simp only [step]
    by_cases hc : s.pendingBg.contains id = true
    · simp only [hc, if_true]
      cases r with
      | netFail => exact ⟨hf, hb, hfle, hble, hne⟩
      | httpErr => exact inv_stop_bg _ ⟨hf, hb, hfle, hble, hne⟩
      | body err snap =>
        by_cases he : err = true
        · simp only [he, if_true]
          exact ⟨hf, hb, hfle, hble, hne⟩
        · simp only [Bool.not_eq_true] at he
          simp only [he, Bool.false_eq_true, if_false]
          by_cases ha : snap.active = true <;>
            simp only [ha, if_true, if_false, Bool.false_eq_true] <;>
            exact ⟨hf, hb, hfle, hble, hne⟩
    · simp only [Bool.not_eq_true] at hc
      simp only [hc, Bool.false_eq_true, if_false]
      exact ⟨hf, hb, hfle, hble, hne⟩
  | checkRespond id r =>
    simp only [step]
    by_cases hc : s.pendingCheck.contains id = true
    · simp only [hc, if_true]
      cases r with
      | netFail => exact ⟨hf, hb, hfle, hble, hne⟩
      | httpErr => exact ⟨hf, hb, hfle, hble, hne⟩
      | body err snap =>
        by_cases he : err = true
        · simp only [he, if_true]
          exact ⟨hf, hb, hfle, hble, hne⟩
        · simp only [Bool.not_eq_true] at he
          simp only [he, Bool.false_eq_true, if_false]
          by_cases ha : snap.active = true
          · simp only [ha, if_true]
            exact inv_start_fast _ ⟨hf, hb, hfle, hble, hne⟩
          · simp only [Bool.not_eq_true] at ha
            simp only [ha, Bool.false_eq_true, if_false]
            exact ⟨hf, hb, hfle, hble, hne⟩
    · simp only [Bool.not_eq_true] at hc
      simp only [hc, Bool.false_eq_true, if_false]
      exact ⟨hf, hb, hfle, hble, hne⟩

theorem inv_init : Inv init := by
  refine ⟨rfl, rfl, ?_, ?_, ?_⟩
  · intro i hi
    exact Option.noConfusion hi
  · intro j hj
    exact Option.noConfusion hj
  · intro i j hi hj
    exact Option.noConfusion hi

theorem inv_foldl (es : List Event) : ∀ s, Inv s → Inv (es.foldl step s) := by
  induction es with
  | nil => intro s h; exact h
  | cons e es ih => intro s h; exact ih (step s e) (inv_step s e h)

theorem inv_run (es : List Event) : Inv (run es) :=
  inv_foldl es init inv_init

/-- C7 counterexample: the background checker passes its fast-poller
guard at tick start (no fast poller exists), but its confirmation fetch
is asynchronous: a fast poller (handle 2) started while that fetch was in
flight, and the arriving confirmation nevertheless calls
start_progress_polling, replacing the already active fast poller with a
new one (handle 3).  The checker therefore does start the fast poller
while a fast poller is already active. -/
theorem handoff_restarts_active_fast_poller :
    (run [Event.startBg, Event.bgFire,
          Event.bgRespond 1 (.body false ⟨true, "Processing", 50⟩),
          Event.startFast]).fastVar = some 2 ∧
    (run [Event.startBg, Event.bgFire,
          Event.bgRespond 1 (.body false ⟨true, "Processing", 50⟩),
          Event.startFast,
          Event.checkRespond 2 (.body false ⟨true, "Processing", 50⟩)]).fastVar = some 3 ∧
    (run [Event.startBg, Event.bgFire,
          Event.bgRespond 1 (.body false ⟨true, "Processing", 50⟩),
          Event.startFast,
          Event.checkRespond 2 (.body false ⟨true, "Processing", 50⟩)]).timers =
      [(1, Kind.bg), (3, Kind.fast)] := by decide

/-- C7 (amended): in every reachable state of the two-tier monitoring, at
most one fast interval and at most one background interval are live,
because each start entry point first cancels the prior instance of its
kind; and the background callback is a no-op whenever a fast poller
handle exists at tick start.  The tick-start guard does not, however,
prevent the asynchronous handoff from starting a fast poller that
replaces one started during the confirmation fetch. -/
theorem at_most_one_poller_per_kind (es : List Event) :
    (timersOf Kind.fast (run es).timers).length ≤ 1 ∧
    (timersOf Kind.bg (run es).timers).length ≤ 1 ∧
    (∀ s : St, s.fastVar.isSome = true → step s Event.bgFire = s) := by
  obtain ⟨hf, hb, hfle, hble, hne⟩ := inv_run es
  refine ⟨?_, ?_, fun s hs => ?_⟩
  · rw [hf]
    cases (run es).fastVar <;> simp
  · rw [hb]
    cases (run es).bgVar <;> simp
  · by_cases hbv : s.bgVar.isSome = true <;> simp [step, hs, hbv]

/-- Witness for the amended C7: a concrete run keeps at most one live
timer of each kind, and a state holding a live fast handle makes the
background tick a no-op. -/
theorem at_most_one_poller_per_kind_witness :
    (timersOf Kind.fast
      (run [Event.startBg, Event.startFast, Event.startFast]).timers).length ≤ 1 ∧
    step ⟨1, [(1, Kind.fast)], some 1, none, [], [], 0⟩ Event.bgFire =
      ⟨1, [(1, Kind.fast)], some 1, none, [], [], 0⟩ := by
  have h := at_most_one_poller_per_kind [Event.startBg, Event.startFast, Event.startFast]
  exact ⟨h.1, h.2.2 ⟨1, [(1, Kind.fast)], some 1, none, [], [], 0⟩ rfl⟩

end MonitorSem

namespace FetchWrap

/-- C8 counterexample: for a 500 response, the wrapper without
skipNotification raises the toast but returns a response that differs
from the one the underlying fetch produced - its body has been consumed
by the toast path - while with skipNotification set the very same
underlying response comes back unchanged.  Suppression therefore does
affect the view of the result the caller gets, not only the toast. -/
theorem toast_path_consumes_body :
    (wrapped_fetch false (.resp respC8)).toasts =
      [("Network Error", "HTTP 500: Internal Server Error")] ∧
    ¬ (wrapped_fetch false (.resp respC8)).result = FetchOutcome.resp respC8 ∧
    (wrapped_fetch true (.resp respC8)).result = FetchOutcome.resp respC8 ∧
    (wrapped_fetch true (.resp respC8)).toasts = [] := by decide

/-- C8 (amended): a toast is produced if and only if the request failed
(thrown fetch or non-2xx response) and skipNotification is not set; a
thrown error is rethrown unchanged and a response is passed through with
status, status text and body parse intact, except that on the toast path
of a non-ok response the body has been consumed before the response is
returned. -/
theorem toast_iff_failure_not_skipped (skip : Bool) (u : FetchOutcome) :
    ((wrapped_fetch skip u).toasts = [] ↔ (skip = true ∨ fetch_succeeded u = true)) ∧
    (wrapped_fetch skip u).result =
      (match u with
       | .thrown msg => .thrown msg
       | .resp r =>
         .resp (if ok r = false && skip = false then { r with bodyUsed := true } else r)) := by
  cases u with
  | thrown msg =>
    cases skip <;> simp [wrapped_fetch, fetch_succeeded]
  | resp r =>
    cases skip <;> cases hok : ok r <;>
      simp [wrapped_fetch, fetch_succeeded, hok]

end FetchWrap

namespace NotifySem

/-- C9 counterexample: six consecutive show_notification calls with no
removal timeout having fired leave six entries in the notification map:
the capacity eviction only schedules the oldest entry for removal 300 ms
later, so right after the sixth call the list of live notifications
exceeds max_notifications = 5. -/
theorem sixth_notification_exceeds_cap :
    (vstateAfter 6).list = [1, 2, 3, 4, 5, 6] ∧
    ¬ (vstateAfter 6).list.length ≤ 5 ∧
    (vstateAfter 6).pending_removals = [1] := by decide

/-- C9 (amended): the React hook maintains the cap on every call: after
addNotification the list holds at most maxNotifications entries, the new
notification is always retained, and adding at capacity drops exactly the
oldest entry.  The vanilla module only schedules the eviction: its map
exceeds the cap until the 300 ms removal timeout fires, after which the
oldest entry is gone and the newest retained. -/
theorem notification_cap_and_eviction (prev : List Nat) (n maxN : Nat) (h1 : 1 ≤ maxN) :
    (addNotification prev n maxN).length ≤ maxN ∧
    n ∈ addNotification prev n maxN ∧
    (prev.length = maxN → addNotification prev n maxN = prev.tail ++ [n]) ∧
    (removal_timeout (vstateAfter 6) 1).list = [2, 3, 4, 5, 6] := by
  unfold addNotification
  have hlen : (prev ++ [n]).length = prev.length + 1 := by simp
  by_cases hc : maxN < (prev ++ [n]).length
  · have hmz : ¬ maxN = 0 := by omega
    simp only [hc, if_true, hmz, if_false]
    refine ⟨?_, ?_, ?_, by decide⟩
    · rw [List.length_drop]
      omega
    · have hle : (prev ++ [n]).length - maxN ≤ prev.length := by omega
      rw [List.drop_append_of_le_length hle]
      exact List.mem_append_right _ (by simp)
    · intro hpl
      have hd1 : (prev ++ [n]).length - maxN = 1 := by omega
      rw [hd1, List.drop_append_of_le_length (by omega), List.drop_one]
  · simp only [hc, if_false]
    refine ⟨by omega, List.mem_append_right _ (by simp), ?_, by decide⟩
    intro hpl
    exfalso
    apply hc
    omega

/-- Witness for the amended C9: adding a sixth notification to a full
React list of five keeps five entries, retains the new one and drops the
oldest. -/
theorem notification_cap_and_eviction_witness :
    (addNotification [10, 20, 30, 40, 50] 60 5).length ≤ 5 ∧
    60 ∈ addNotification [10, 20, 30, 40, 50] 60 5 ∧
    addNotification [10, 20, 30, 40, 50] 60 5 = [20, 30, 40, 50, 60] := by
  have h := notification_cap_and_eviction [10, 20, 30, 40, 50] 60 5 (by omega)
  exact ⟨h.1, h.2.1, (h.2.2.1 rfl).trans (by decide)⟩

end NotifySem
